import Mathlib

/-!
Verification of the proof-interchange and gating core of
`solana-confidential-mint` (crates `florin-core` and `florin-zk`).

The Rust sources embedded here:
* `florin-core/src/lib/proof_import.rs` — envelope data model,
  `extract_proof_binary_data`, `is_version_compatible`;
* `florin-core/src/lib/proof_verification.rs` — error taxonomy,
  `VerificationConfig`, `is_proof_expired`, `verify_transfer_proof`,
  `verify_withdraw_proof`, `verify_proof`;
* `florin-zk/src/lib/dto_versioning.rs` — semver-based
  `check_version_compatibility`, `needs_upgrade`,
  `get_version_relationship`, `upgrade_proof_to_current_version`.

External library capabilities that the code calls are treated as
parameters or modelled explicitly:
* the composition of base64 decoding and JSON deserialization into
  `SerializableProofData` (crates `base64` + `serde_json`) is passed as a
  parameter `decode : String → Option SerializableProofData`;
* chrono's `DateTime::parse_from_rfc3339` (converted to UTC and measured
  in integer nanoseconds since the epoch) is passed as a parameter
  `parse_rfc3339 : String → Option Int`, and `Utc::now()` as `now : Int`;
* the `semver` crate's `Version::parse` and its total order are modelled
  concretely (`semver_parse`, `semver_cmp`) following the SemVer grammar
  and precedence rules implemented by that crate.

Rust's `Result` is modelled as `Except`, `&mut self` update as a function
returning the new value, `u8` bytes as `Nat`, `u64` as `Nat` with the
`u64 as i64` cast made explicit where the code performs it.
-/

namespace Florin

/-- `ProofType` from `florin-core/src/lib/proof_import.rs` (it matches the
one in `florin-zk/src/lib/proof_export.rs`). -/
inductive ProofType where
  | Transfer
  | Withdraw
  | PubkeyValidity
  | TransferWithProof
  | WithdrawWithProof
deriving DecidableEq, Repr

/-- `ProofMetadata` from `proof_import.rs`. `amount` is a `u64` in Rust;
no arithmetic is performed on it, so `Nat` is faithful. `timestamp` is the
raw ISO8601 string. -/
structure ProofMetadata where
  source_address : Option String
  destination_address : Option String
  mint_address : Option String
  amount : Option Nat
  timestamp : String
deriving DecidableEq, Repr

/-- `ImportableProof` from `proof_import.rs`: the consumer-side envelope.
`data` is the base64-encoded serialized inner proof record. -/
structure ImportableProof where
  version : String
  proof_id : String
  proof_type : ProofType
  zk_sdk_version : String
  data : String
  metadata : ProofMetadata
deriving DecidableEq, Repr

/-- `SerializableProofData` from `proof_import.rs`: the inner tagged
record obtained by base64-decoding and JSON-parsing `data`. -/
structure SerializableProofData where
  data_type : String
  binary_data : List Nat
deriving DecidableEq, Repr

/-- `VerificationConfig` from `proof_verification.rs`.
`max_proof_age_seconds` is a `u64`. -/
structure VerificationConfig where
  max_proof_age_seconds : Nat
  verify_crypto : Bool
  check_version : Bool
deriving DecidableEq, Repr

/-- `VerificationConfig::default()`: one hour, both checks on. -/
def VerificationConfig.default : VerificationConfig :=
  { max_proof_age_seconds := 3600, verify_crypto := true, check_version := true }

/-- `ProofVerificationError` from `proof_verification.rs`. -/
inductive ProofVerificationError where
  | InvalidStructure (msg : String)
  | ExpiredProof
  | MissingMetadata (field : String)
  | InvalidProofType
  | VerificationFailed
  | InvalidVersion
deriving DecidableEq, Repr

/-- `VerificationResult` from `proof_verification.rs`. -/
structure VerificationResult where
  is_valid : Bool
  message : Option String
deriving DecidableEq, Repr

/-- Rust `str::split(sep)` over the characters of the string: splitting
an empty string yields one empty piece, and every separator occurrence
starts a new piece (so `"..".split('.')` yields three empty pieces). -/
def split_char (sep : Char) : List Char → List (List Char)
  | [] => [[]]
  | c :: rest =>
      if c = sep then
        [] :: split_char sep rest
      else
        match split_char sep rest with
        | piece :: pieces => (c :: piece) :: pieces
        | [] => [[c]]

/-- Interpret a list of ASCII digits as a decimal number. -/
def digits_to_nat (cs : List Char) : Nat :=
  cs.foldl (fun acc c => 10 * acc + (c.toNat - 48)) 0

/-- Rust `str::parse::<u32>`: an optional leading `+`, then one or more
ASCII digits whose value fits in 32 bits. -/
def parse_u32 (cs : List Char) : Option Nat :=
  let cs2 := match cs with
    | '+' :: rest => rest
    | other => other
  if cs2.isEmpty then none
  else if !(cs2.all fun c => c.isDigit) then none
  else if digits_to_nat cs2 < 4294967296 then some (digits_to_nat cs2) else none

/-- `is_version_compatible` from `proof_import.rs`: split the version on
`.`; require exactly three components; parse the first as `u32` and accept
iff it equals 1. -/
def is_version_compatible (proof : ImportableProof) : Bool :=
  let version_parts := split_char '.' proof.version.toList
  if version_parts.length ≠ 3 then
    false
  else
    match parse_u32 (version_parts.headD []) with
    | some major => major == 1
    | none => false

/-- `extract_proof_binary_data` from `proof_import.rs`: base64-decode
`proof.data`, JSON-parse the result into `SerializableProofData`, return
its `binary_data`. The two decoding steps (external crates `base64` and
`serde_json`) are abstracted as the parameter `decode`; the function's own
contribution is projecting out `binary_data` and discarding `data_type`. -/
def extract_proof_binary_data (decode : String → Option SerializableProofData)
    (proof : ImportableProof) : Option (List Nat) :=
  match decode proof.data with
  | some serializable_proof => some serializable_proof.binary_data
  | none => none

/-- Rust's `u64 as i64` cast (wrapping reinterpretation). -/
def u64_as_i64 (n : Nat) : Int :=
  if n < 2 ^ 63 then (n : Int) else (n : Int) - 2 ^ 64

/-- chrono `Duration::seconds`, with durations measured in integer
nanoseconds (chrono durations carry nanosecond precision; the value is
defined by chrono only for `|s| ≤ i64::MAX / 1000` milliseconds worth of
seconds — outside that range `Duration::seconds` panics). -/
def duration_seconds (s : Int) : Int := s * 1000000000

/-- `is_proof_expired` from `proof_verification.rs`: parse
`metadata.timestamp` as RFC 3339; on success the proof is expired iff
`now - timestamp` exceeds `max_proof_age_seconds`; on parse failure the
proof is treated as NOT expired (the code's explicit fallback).
`parse_rfc3339` stands for chrono's parser (UTC, nanoseconds since epoch)
and `now` for `Utc::now()`. -/
def is_proof_expired (parse_rfc3339 : String → Option Int) (now : Int)
    (proof : ImportableProof) (config : VerificationConfig) : Bool :=
  match parse_rfc3339 proof.metadata.timestamp with
  | some timestamp =>
      let proof_age := now - timestamp
      decide (proof_age > duration_seconds (u64_as_i64 config.max_proof_age_seconds))
  | none => false

/-- `verify_transfer_proof` from `proof_verification.rs`, in the code's
exact order: required metadata (source, destination, amount), then the
version gate (if `check_version`), then payload extraction, then the
32-byte floor, then the placeholder crypto check. -/
def verify_transfer_proof (decode : String → Option SerializableProofData)
    (proof : ImportableProof) (config : VerificationConfig) :
    Except ProofVerificationError VerificationResult :=
  if proof.metadata.source_address.isNone then
    .error (.MissingMetadata "source_address")
  else if proof.metadata.destination_address.isNone then
    .error (.MissingMetadata "destination_address")
  else if proof.metadata.amount.isNone then
    .error (.MissingMetadata "amount")
  else if config.check_version && !(is_version_compatible proof) then
    .error .InvalidVersion
  else
    match extract_proof_binary_data decode proof with
    | none => .error (.InvalidStructure "failed to extract proof data")
    | some proof_data =>
        if proof_data.length < 32 then
          .error (.InvalidStructure "proof data too small")
        else if config.verify_crypto && proof_data.isEmpty then
          .error .VerificationFailed
        else
          .ok { is_valid := true,
                message := some ("Verified transfer of "
                  ++ toString (proof.metadata.amount.getD 0)
                  ++ " from " ++ proof.metadata.source_address.getD "unknown"
                  ++ " to " ++ proof.metadata.destination_address.getD "unknown") }

/-- `verify_withdraw_proof` from `proof_verification.rs`: same shape as
the transfer validator but only source and amount are required. -/
def verify_withdraw_proof (decode : String → Option SerializableProofData)
    (proof : ImportableProof) (config : VerificationConfig) :
    Except ProofVerificationError VerificationResult :=
  if proof.metadata.source_address.isNone then
    .error (.MissingMetadata "source_address")
  else if proof.metadata.amount.isNone then
    .error (.MissingMetadata "amount")
  else if config.check_version && !(is_version_compatible proof) then
    .error .InvalidVersion
  else
    match extract_proof_binary_data decode proof with
    | none => .error (.InvalidStructure "failed to extract proof data")
    | some proof_data =>
        if proof_data.length < 32 then
          .error (.InvalidStructure "proof data too small")
        else if config.verify_crypto && proof_data.isEmpty then
          .error .VerificationFailed
        else
          .ok { is_valid := true,
                message := some ("Verified withdrawal of "
                  ++ toString (proof.metadata.amount.getD 0)
                  ++ " from " ++ proof.metadata.source_address.getD "unknown") }

/-- `verify_proof` from `proof_verification.rs`: expiration first, then
dispatch on `proof_type` (`Transfer`/`TransferWithProof` and
`Withdraw`/`WithdrawWithProof`); every other kind — including
`PubkeyValidity` — falls to `InvalidProofType`. -/
def verify_proof (decode : String → Option SerializableProofData)
    (parse_rfc3339 : String → Option Int) (now : Int)
    (proof : ImportableProof) (config : VerificationConfig) :
    Except ProofVerificationError VerificationResult :=
  if is_proof_expired parse_rfc3339 now proof config then
    .error .ExpiredProof
  else
    match proof.proof_type with
    | .Transfer | .TransferWithProof => verify_transfer_proof decode proof config
    | .Withdraw | .WithdrawWithProof => verify_withdraw_proof decode proof config
    | _ => .error .InvalidProofType

/-- `ExportableProof` from `florin-zk/src/lib/proof_export.rs`: the
producer-side envelope; field-for-field the same shape as
`ImportableProof` but a distinct type in a distinct crate. -/
structure ExportableProof where
  version : String
  proof_id : String
  proof_type : ProofType
  zk_sdk_version : String
  data : String
  metadata : ProofMetadata
deriving DecidableEq, Repr

/-- A SemVer prerelease identifier as classified by the `semver` crate:
numeric (all ASCII digits, no leading zeros, fits `u64`) or alphanumeric
(kept as its character list). -/
inductive SvId where
  | num (n : Nat)
  | str (s : List Char)
deriving DecidableEq, Repr

/-- Parsed `semver::Version`: numeric core plus optional prerelease and
build-metadata identifier lists. -/
structure SemVer where
  major : Nat
  minor : Nat
  patch : Nat
  pre : List SvId
  build : List (List Char)
deriving DecidableEq, Repr

/-- True when a digit sequence has a leading zero (more than one digit,
the first being `0`) — forbidden for SemVer numeric components. -/
def has_leading_zero : List Char → Bool
  | '0' :: _ :: _ => true
  | _ => false

/-- A SemVer core number (`major`, `minor`, `patch`): non-empty, ASCII
digits only, no leading zeros (except `0` itself), value below `2^64`. -/
def parse_numeric_core (cs : List Char) : Option Nat :=
  if cs.isEmpty then none
  else if !(cs.all fun c => c.isDigit) then none
  else if has_leading_zero cs then none
  else if digits_to_nat cs < 2 ^ 64 then some (digits_to_nat cs) else none

/-- A SemVer prerelease identifier: non-empty, over `[0-9A-Za-z-]`;
all-digit identifiers are numeric (no leading zeros, below `2^64`). -/
def parse_pre_id (cs : List Char) : Option SvId :=
  if cs.isEmpty then none
  else if !(cs.all fun c => c.isAlphanum || c = '-') then none
  else if cs.all fun c => c.isDigit then
    if has_leading_zero cs then none
    else if digits_to_nat cs < 2 ^ 64 then some (.num (digits_to_nat cs)) else none
  else some (.str cs)

/-- A SemVer build-metadata identifier: non-empty, over `[0-9A-Za-z-]`
(leading zeros allowed). -/
def is_build_id (cs : List Char) : Bool :=
  !cs.isEmpty && cs.all (fun c => c.isAlphanum || c = '-')

/-- Map `parse` over a list, failing if any element fails. -/
def parse_all {α : Type} (parse : List Char → Option α) :
    List (List Char) → Option (List α)
  | [] => some []
  | s :: rest =>
      match parse s, parse_all parse rest with
      | some a, some as' => some (a :: as')
      | _, _ => none

/-- Split a character list at the first occurrence of `sep`: the part
before it, and — when `sep` occurs — the part after it. -/
def break_at (sep : Char) : List Char → List Char × Option (List Char)
  | [] => ([], none)
  | c :: rest =>
      if c = sep then ([], some rest)
      else
        match break_at sep rest with
        | (before, after) => (c :: before, after)

/-- `semver::Version::parse`: `major.minor.patch`, optionally followed by
`-` and a dot-separated prerelease, optionally followed by `+` and
dot-separated build metadata. The build part starts at the first `+` and
the prerelease at the first `-` after the numeric core (core components
are digits-only, so they cannot contain `-`; any invalid identifier makes
the whole string unparseable). -/
def semver_parse (s : String) : Option SemVer :=
  let (core_pre, build_str) := break_at '+' s.toList
  let (core, pre_str) := break_at '-' core_pre
  match split_char '.' core with
  | [maj_s, min_s, pat_s] =>
      match parse_numeric_core maj_s, parse_numeric_core min_s, parse_numeric_core pat_s with
      | some maj, some minr, some pat =>
          let pre : Option (List SvId) :=
            match pre_str with
            | none => some []
            | some ps => parse_all parse_pre_id (split_char '.' ps)
          let build : Option (List (List Char)) :=
            match build_str with
            | none => some []
            | some bs =>
                let ids := split_char '.' bs
                if ids.all is_build_id then some ids else none
          match pre, build with
          | some pre', some build' =>
              some { major := maj, minor := minr, patch := pat, pre := pre', build := build' }
          | _, _ => none
      | _, _, _ => none
  | _ => none

/-- Byte-lexicographic comparison of two ASCII identifiers (Rust's
`Ord` on `str`, character-wise here). -/
def cmp_chars : List Char → List Char → Ordering
  | [], [] => .eq
  | [], _ :: _ => .lt
  | _ :: _, [] => .gt
  | a :: as', b :: bs' =>
      match compare a b with
      | .eq => cmp_chars as' bs'
      | o => o

/-- Comparison of two prerelease identifiers as in the `semver` crate:
numeric before alphanumeric; numeric by value; alphanumeric by ASCII
string order. -/
def cmp_svid : SvId → SvId → Ordering
  | .num a, .num b => compare a b
  | .num _, .str _ => .lt
  | .str _, .num _ => .gt
  | .str a, .str b => cmp_chars a b

/-- Lexicographic comparison of identifier lists; a strict prefix is
smaller. -/
def cmp_svid_list : List SvId → List SvId → Ordering
  | [], [] => .eq
  | [], _ :: _ => .lt
  | _ :: _, [] => .gt
  | a :: as', b :: bs' =>
      match cmp_svid a b with
      | .eq => cmp_svid_list as' bs'
      | o => o

/-- SemVer prerelease precedence: a version with no prerelease sorts
above one with a prerelease; two prereleases compare identifier by
identifier. -/
def cmp_pre (a b : List SvId) : Ordering :=
  match a, b with
  | [], [] => .eq
  | [], _ :: _ => .gt
  | _ :: _, [] => .lt
  | _, _ => cmp_svid_list a b

/-- Build-metadata identifier comparison as in the `semver` crate: two
all-digit identifiers compare by length then by string (this is numeric
order, with leading zeros making the number longer); digits-only sorts
below mixed; otherwise ASCII string order. -/
def cmp_build_id (a b : List Char) : Ordering :=
  match a.all Char.isDigit, b.all Char.isDigit with
  | true, true => (compare a.length b.length).then (cmp_chars a b)
  | true, false => .lt
  | false, true => .gt
  | false, false => cmp_chars a b

/-- Lexicographic comparison of build-metadata lists (empty metadata
sorts first). -/
def cmp_build : List (List Char) → List (List Char) → Ordering
  | [], [] => .eq
  | [], _ :: _ => .lt
  | _ :: _, [] => .gt
  | a :: as', b :: bs' =>
      match cmp_build_id a b with
      | .eq => cmp_build as' bs'
      | o => o

/-- The `semver` crate's total order on `Version`: major, minor, patch,
then prerelease precedence, with build metadata as the final
tie-breaker. -/
def semver_cmp (a b : SemVer) : Ordering :=
  ((compare a.major b.major).then
    ((compare a.minor b.minor).then
      ((compare a.patch b.patch).then
        ((cmp_pre a.pre b.pre).then (cmp_build a.build b.build)))))

/-- `CURRENT_DTO_VERSION` from `dto_versioning.rs`. -/
def CURRENT_DTO_VERSION : String := "1.0.0"

/-- `MIN_SUPPORTED_DTO_VERSION` from `dto_versioning.rs`. -/
def MIN_SUPPORTED_DTO_VERSION : String := "1.0.0"

/-- `check_version_compatibility` from `dto_versioning.rs`: parse the two
constants and the proof's version (each parse failure is an `Err`), then
accept iff `min ≤ v ≤ current` under the semver order. -/
def check_version_compatibility (proof : ExportableProof) : Except String Bool :=
  match semver_parse CURRENT_DTO_VERSION with
  | none => .error "Failed to parse current version"
  | some current_version =>
      match semver_parse MIN_SUPPORTED_DTO_VERSION with
      | none => .error "Failed to parse minimum supported version"
      | some min_supported_version =>
          match semver_parse proof.version with
          | none => .error "Failed to parse proof version"
          | some proof_version =>
              .ok (semver_cmp proof_version min_supported_version ≠ .lt
                   && semver_cmp proof_version current_version ≠ .gt)

/-- `needs_upgrade` from `dto_versioning.rs`: true iff the proof's
version is strictly below `CURRENT_DTO_VERSION`. -/
def needs_upgrade (proof : ExportableProof) : Except String Bool :=
  match semver_parse CURRENT_DTO_VERSION with
  | none => .error "Failed to parse current version"
  | some current_version =>
      match semver_parse proof.version with
      | none => .error "Failed to parse proof version"
      | some proof_version =>
          .ok (semver_cmp proof_version current_version == .lt)

/-- `get_version_relationship` from `dto_versioning.rs`. -/
def get_version_relationship (proof : ExportableProof) : Except String Ordering :=
  match semver_parse CURRENT_DTO_VERSION with
  | none => .error "Failed to parse current version"
  | some current_version =>
      match semver_parse proof.version with
      | none => .error "Failed to parse proof version"
      | some proof_version =>
          .ok (semver_cmp proof_version current_version)

/-- `upgrade_proof_to_current_version` from `dto_versioning.rs`. Rust
mutates the proof in place and returns `Result<bool>`; here the updated
proof is returned alongside the boolean. When no upgrade is needed the
proof is returned unchanged with `false`; when the relationship is `Less`
the version field is rewritten to `CURRENT_DTO_VERSION` and `true` is
returned. -/
def upgrade_proof_to_current_version (proof : ExportableProof) :
    Except String (ExportableProof × Bool) :=
  match needs_upgrade proof with
  | .error e => .error e
  | .ok false => .ok (proof, false)
  | .ok true =>
      match get_version_relationship proof with
      | .error e => .error e
      | .ok .lt => .ok ({ proof with version := CURRENT_DTO_VERSION }, true)
      | .ok _ => .ok (proof, false)

/-- The version-range predicate in the spec's words (§4.2 Version Gate):
a parsed version is in range iff
`MIN_SUPPORTED_DTO_VERSION ≤ v ≤ CURRENT_DTO_VERSION` under semver
precedence. Used to compare the implementation against the spec. -/
def spec_version_in_range (v : SemVer) : Bool :=
  match semver_parse MIN_SUPPORTED_DTO_VERSION, semver_parse CURRENT_DTO_VERSION with
  | some min_v, some cur_v => semver_cmp v min_v ≠ .lt && semver_cmp v cur_v ≠ .gt
  | _, _ => false

/-- The parsed form of `CURRENT_DTO_VERSION` (= `"1.0.0"`). -/
def current_dto_semver : SemVer := ⟨1, 0, 0, [], []⟩

/-- All conditions for an envelope to reach the structural (payload)
stage of the pipeline: it is not expired, the version gate passes (or is
disabled), the kind is one of the four dispatched ones, and the metadata
required for that kind is present. -/
def reaches_structural_stage (parse_rfc3339 : String → Option Int) (now : Int)
    (proof : ImportableProof) (config : VerificationConfig) : Prop :=
  is_proof_expired parse_rfc3339 now proof config = false ∧
  (config.check_version = true → is_version_compatible proof = true) ∧
  (((proof.proof_type = .Transfer ∨ proof.proof_type = .TransferWithProof) ∧
      proof.metadata.source_address.isSome = true ∧
      proof.metadata.destination_address.isSome = true ∧
      proof.metadata.amount.isSome = true)
   ∨ ((proof.proof_type = .Withdraw ∨ proof.proof_type = .WithdrawWithProof) ∧
      proof.metadata.source_address.isSome = true ∧
      proof.metadata.amount.isSome = true))

end Florin

deriving instance DecidableEq for Except

namespace Florin

lemma semver_parse_current : semver_parse CURRENT_DTO_VERSION = some current_dto_semver := by
  decide

lemma semver_parse_min :
    semver_parse MIN_SUPPORTED_DTO_VERSION = some current_dto_semver := by
  decide

/-- When the required transfer metadata is present, `verify_transfer_proof`
never reports `MissingMetadata`. -/
lemma verify_transfer_proof_not_missing (decode : String → Option SerializableProofData)
    (proof : ImportableProof) (config : VerificationConfig)
    (h1 : proof.metadata.source_address.isSome = true)
    (h2 : proof.metadata.destination_address.isSome = true)
    (h3 : proof.metadata.amount.isSome = true) :
    ∀ field, verify_transfer_proof decode proof config ≠ .error (.MissingMetadata field) := by
  intro field
  obtain ⟨s, hs⟩ := Option.isSome_iff_exists.mp h1
  obtain ⟨d, hd⟩ := Option.isSome_iff_exists.mp h2
  obtain ⟨a, ha⟩ := Option.isSome_iff_exists.mp h3
  simp [verify_transfer_proof, hs, hd, ha]
  split
  · simp
  · split
    · simp
    · split
      · simp
      · split <;> simp

/-- When source and amount are present, `verify_withdraw_proof` never
reports `MissingMetadata`. -/
lemma verify_withdraw_proof_not_missing (decode : String → Option SerializableProofData)
    (proof : ImportableProof) (config : VerificationConfig)
    (h1 : proof.metadata.source_address.isSome = true)
    (h3 : proof.metadata.amount.isSome = true) :
    ∀ field, verify_withdraw_proof decode proof config ≠ .error (.MissingMetadata field) := by
  intro field
  obtain ⟨s, hs⟩ := Option.isSome_iff_exists.mp h1
  obtain ⟨a, ha⟩ := Option.isSome_iff_exists.mp h3
  simp [verify_withdraw_proof, hs, ha]
  split
  · simp
  · split
    · simp
    · split
      · simp
      · split <;> simp

/-- Payload-stage behavior of `verify_transfer_proof` once metadata and
version checks pass. -/
lemma verify_transfer_proof_payload (decode : String → Option SerializableProofData)
    (proof : ImportableProof) (config : VerificationConfig)
    (h1 : proof.metadata.source_address.isSome = true)
    (h2 : proof.metadata.destination_address.isSome = true)
    (h3 : proof.metadata.amount.isSome = true)
    (hvc : config.check_version = true → is_version_compatible proof = true) :
    (decode proof.data = none →
      verify_transfer_proof decode proof config
        = .error (.InvalidStructure "failed to extract proof data")) ∧
    (∀ r, decode proof.data = some r → r.binary_data.length < 32 →
      verify_transfer_proof decode proof config
        = .error (.InvalidStructure "proof data too small")) ∧
    (∀ r, decode proof.data = some r → 32 ≤ r.binary_data.length →
      verify_transfer_proof decode proof config
        ≠ .error (.InvalidStructure "proof data too small") ∧
      verify_transfer_proof decode proof config
        ≠ .error (.InvalidStructure "failed to extract proof data")) := by
  obtain ⟨s, hs⟩ := Option.isSome_iff_exists.mp h1
  obtain ⟨d, hd⟩ := Option.isSome_iff_exists.mp h2
  obtain ⟨a, ha⟩ := Option.isSome_iff_exists.mp h3
  refine ⟨?_, ?_, ?_⟩
  · intro hdec
    cases hcv : config.check_version with
    | false => simp [verify_transfer_proof, hs, hd, ha, hcv, extract_proof_binary_data, hdec]
    | true => simp [verify_transfer_proof, hs, hd, ha, hcv, hvc hcv,
        extract_proof_binary_data, hdec]
  · intro r hdec hlen
    cases hcv : config.check_version with
    | false => simp [verify_transfer_proof, hs, hd, ha, hcv, extract_proof_binary_data, hdec, hlen]
    | true => simp [verify_transfer_proof, hs, hd, ha, hcv, hvc hcv,
        extract_proof_binary_data, hdec, hlen]
  · intro r hdec hlen
    have hlen' : ¬ r.binary_data.length < 32 := by omega
    constructor <;>
    · cases hcv : config.check_version with
      | false =>
        simp [verify_transfer_proof, hs, hd, ha, hcv, extract_proof_binary_data, hdec, hlen']
        split <;> simp
      | true =>
        simp [verify_transfer_proof, hs, hd, ha, hcv, hvc hcv,
          extract_proof_binary_data, hdec, hlen']
        split <;> simp

/-- Payload-stage behavior of `verify_withdraw_proof` once metadata and
version checks pass. -/
lemma verify_withdraw_proof_payload (decode : String → Option SerializableProofData)
    (proof : ImportableProof) (config : VerificationConfig)
    (h1 : proof.metadata.source_address.isSome = true)
    (h3 : proof.metadata.amount.isSome = true)
    (hvc : config.check_version = true → is_version_compatible proof = true) :
    (decode proof.data = none →
      verify_withdraw_proof decode proof config
        = .error (.InvalidStructure "failed to extract proof data")) ∧
    (∀ r, decode proof.data = some r → r.binary_data.length < 32 →
      verify_withdraw_proof decode proof config
        = .error (.InvalidStructure "proof data too small")) ∧
    (∀ r, decode proof.data = some r → 32 ≤ r.binary_data.length →
      verify_withdraw_proof decode proof config
        ≠ .error (.InvalidStructure "proof data too small") ∧
      verify_withdraw_proof decode proof config
        ≠ .error (.InvalidStructure "failed to extract proof data")) := by
  obtain ⟨s, hs⟩ := Option.isSome_iff_exists.mp h1
  obtain ⟨a, ha⟩ := Option.isSome_iff_exists.mp h3
  refine ⟨?_, ?_, ?_⟩
  · intro hdec
    cases hcv : config.check_version with
    | false => simp [verify_withdraw_proof, hs, ha, hcv, extract_proof_binary_data, hdec]
    | true => simp [verify_withdraw_proof, hs, ha, hcv, hvc hcv,
        extract_proof_binary_data, hdec]
  · intro r hdec hlen
    cases hcv : config.check_version with
    | false => simp [verify_withdraw_proof, hs, ha, hcv, extract_proof_binary_data, hdec, hlen]
    | true => simp [verify_withdraw_proof, hs, ha, hcv, hvc hcv,
        extract_proof_binary_data, hdec, hlen]
  · intro r hdec hlen
    have hlen' : ¬ r.binary_data.length < 32 := by omega
    constructor <;>
    · cases hcv : config.check_version with
      | false =>
        simp [verify_withdraw_proof, hs, ha, hcv, extract_proof_binary_data, hdec, hlen']
        split <;> simp
      | true =>
        simp [verify_withdraw_proof, hs, ha, hcv, hvc hcv,
          extract_proof_binary_data, hdec, hlen']
        split <;> simp

lemma verify_transfer_proof_ne_expired (decode : String → Option SerializableProofData)
    (proof : ImportableProof) (config : VerificationConfig) :
    verify_transfer_proof decode proof config ≠ .error .ExpiredProof := by
  simp only [verify_transfer_proof]
  (repeat' split) <;> simp_all

lemma verify_withdraw_proof_ne_expired (decode : String → Option SerializableProofData)
    (proof : ImportableProof) (config : VerificationConfig) :
    verify_withdraw_proof decode proof config ≠ .error .ExpiredProof := by
  simp only [verify_withdraw_proof]
  (repeat' split) <;> simp_all

lemma verify_transfer_proof_ne_failed (decode : String → Option SerializableProofData)
    (proof : ImportableProof) (config : VerificationConfig) :
    verify_transfer_proof decode proof config ≠ .error .VerificationFailed := by
  simp only [verify_transfer_proof]
  (repeat' split) <;> simp_all

lemma verify_withdraw_proof_ne_failed (decode : String → Option SerializableProofData)
    (proof : ImportableProof) (config : VerificationConfig) :
    verify_withdraw_proof decode proof config ≠ .error .VerificationFailed := by
  simp only [verify_withdraw_proof]
  (repeat' split) <;> simp_all

lemma verify_transfer_proof_crypto_toggle (decode : String → Option SerializableProofData)
    (proof : ImportableProof) (m : Nat) (b1 b2 cv : Bool) :
    verify_transfer_proof decode proof ⟨m, b1, cv⟩
      = verify_transfer_proof decode proof ⟨m, b2, cv⟩ := by
  simp only [verify_transfer_proof]
  (repeat' split) <;> simp_all

lemma verify_withdraw_proof_crypto_toggle (decode : String → Option SerializableProofData)
    (proof : ImportableProof) (m : Nat) (b1 b2 cv : Bool) :
    verify_withdraw_proof decode proof ⟨m, b1, cv⟩
      = verify_withdraw_proof decode proof ⟨m, b2, cv⟩ := by
  simp only [verify_withdraw_proof]
  (repeat' split) <;> simp_all

/-- Claim C1, counterexample: a non-expired `Transfer` envelope with an
incompatible version (`"2.0.0"`, default config has `check_version` on)
AND a missing `source_address` is rejected with
`MissingMetadata "source_address"`, not `InvalidVersion` — the claim's
"version before structural/metadata" ordering is false. -/
theorem C1_counterexample :
    is_proof_expired (fun _ => none) 0
      ⟨"2.0.0", "p", .Transfer, "z", "", ⟨none, some "B", none, some 100, "t"⟩⟩
      VerificationConfig.default = false
    ∧ VerificationConfig.default.check_version = true
    ∧ is_version_compatible
        ⟨"2.0.0", "p", .Transfer, "z", "", ⟨none, some "B", none, some 100, "t"⟩⟩ = false
    ∧ verify_proof (fun _ => none) (fun _ => none) 0
        ⟨"2.0.0", "p", .Transfer, "z", "", ⟨none, some "B", none, some 100, "t"⟩⟩
        VerificationConfig.default = .error (.MissingMetadata "source_address")
    ∧ ¬ (verify_proof (fun _ => none) (fun _ => none) 0
        ⟨"2.0.0", "p", .Transfer, "z", "", ⟨none, some "B", none, some 100, "t"⟩⟩
        VerificationConfig.default = .error .InvalidVersion) := by
  refine ⟨rfl, rfl, by decide, rfl, by decide⟩

/-- Claim C1, amended: the pipeline checks expiration first — an expired
envelope yields `ExpiredProof` regardless of any other defect. For a
non-expired `Transfer`/`Withdraw` envelope with `check_version` enabled
and an incompatible version, the verdict is `InvalidVersion` if and only
if all metadata required for the kind is present: the metadata check runs
before the version gate, so missing metadata wins. -/
theorem C1_pipeline_order (decode : String → Option SerializableProofData)
    (parse_rfc3339 : String → Option Int) (now : Int)
    (proof : ImportableProof) (config : VerificationConfig) :
    (is_proof_expired parse_rfc3339 now proof config = true →
      verify_proof decode parse_rfc3339 now proof config = .error .ExpiredProof)
    ∧
    (is_proof_expired parse_rfc3339 now proof config = false →
     config.check_version = true →
     is_version_compatible proof = false →
      (((proof.proof_type = .Transfer ∨ proof.proof_type = .TransferWithProof) →
        (verify_proof decode parse_rfc3339 now proof config = .error .InvalidVersion ↔
          proof.metadata.source_address.isSome = true ∧
          proof.metadata.destination_address.isSome = true ∧
          proof.metadata.amount.isSome = true))
       ∧
       ((proof.proof_type = .Withdraw ∨ proof.proof_type = .WithdrawWithProof) →
        (verify_proof decode parse_rfc3339 now proof config = .error .InvalidVersion ↔
          proof.metadata.source_address.isSome = true ∧
          proof.metadata.amount.isSome = true)))) := by
  constructor
  · intro hexp
    simp [verify_proof, hexp]
  · intro hexp hcv hcompat
    constructor
    · rintro (hty | hty) <;>
      · rw [verify_proof, hexp, if_neg (by simp), hty]
        cases hs : proof.metadata.source_address with
        | none => simp [verify_transfer_proof, hs]
        | some s =>
          cases hd : proof.metadata.destination_address with
          | none => simp [verify_transfer_proof, hs, hd]
          | some d =>
            cases ha : proof.metadata.amount with
            | none => simp [verify_transfer_proof, hs, hd, ha]
            | some a => simp [verify_transfer_proof, hs, hd, ha, hcv, hcompat]
    · rintro (hty | hty) <;>
      · rw [verify_proof, hexp, if_neg (by simp), hty]
        cases hs : proof.metadata.source_address with
        | none => simp [verify_withdraw_proof, hs]
        | some s =>
          cases ha : proof.metadata.amount with
          | none => simp [verify_withdraw_proof, hs, ha]
          | some a => simp [verify_withdraw_proof, hs, ha, hcv, hcompat]

/-- Claim C1, witness: an expired envelope is rejected as `ExpiredProof`,
and a fresh `Withdraw` envelope with complete metadata but incompatible
version is rejected as `InvalidVersion`. -/
theorem C1_pipeline_order_witness :
    verify_proof (fun _ => none) (fun _ => some 0) 10000000000000
      ⟨"1.0.0", "p", .Transfer, "z", "", ⟨some "A", some "B", none, some 100, "t"⟩⟩
      VerificationConfig.default = .error .ExpiredProof
    ∧ verify_proof (fun _ => none) (fun _ => some 0) 0
      ⟨"2.0.0", "p", .Withdraw, "z", "", ⟨some "A", none, none, some 100, "t"⟩⟩
      VerificationConfig.default = .error .InvalidVersion := by
  constructor
  · exact (C1_pipeline_order _ _ _ _ _).1 (by decide)
  · exact (((C1_pipeline_order _ _ _ _ _).2 (by decide) rfl (by decide)).2
      (Or.inl rfl)).mpr ⟨rfl, rfl⟩

/-- Claim C2, counterexample: the pipeline's version gate
(`is_version_compatible`) accepts `"1.0.1"`, one patch above
`CURRENT_VERSION = "1.0.0"`, which the claim says is incompatible. (The
zk-side `check_version_compatibility` does reject it, shown for
contrast.) -/
theorem C2_counterexample :
    is_version_compatible
      ⟨"1.0.1", "p", .Transfer, "z", "", ⟨none, none, none, none, "t"⟩⟩ = true
    ∧ check_version_compatibility
        ⟨"1.0.1", "p", .Transfer, "z", "", ⟨none, none, none, none, "t"⟩⟩ = .ok false := by
  exact ⟨by decide, by decide⟩

/-- Claim C2, amended: only the zk-side `check_version_compatibility`
implements the range test `MIN_SUPPORTED ≤ v ≤ CURRENT` (and errors on an
unparseable version); the core pipeline gate `is_version_compatible`
instead accepts exactly the version strings with three dot-separated
components whose first parses as the `u32` 1 — so `"1.0.1"` passes the
pipeline gate. -/
theorem C2_version_gates :
    (∀ (p : ExportableProof) (v : SemVer), semver_parse p.version = some v →
        check_version_compatibility p = .ok (spec_version_in_range v))
    ∧ (∀ p : ExportableProof, semver_parse p.version = none →
        check_version_compatibility p = .error "Failed to parse proof version")
    ∧ (∀ p : ImportableProof,
        is_version_compatible p =
          ((split_char '.' p.version.toList).length == 3
            && parse_u32 ((split_char '.' p.version.toList).headD []) == some 1)) := by
  refine ⟨?_, ?_, ?_⟩
  · intro p v h
    simp only [check_version_compatibility, spec_version_in_range,
      semver_parse_current, semver_parse_min, h]
  · intro p h
    simp only [check_version_compatibility, semver_parse_current, semver_parse_min, h]
  · intro p
    simp only [is_version_compatible, String.toList]
    by_cases hl : (split_char '.' p.version.data).length = 3
    · rw [if_neg (by simp [hl])]
      cases hp : parse_u32 ((split_char '.' p.version.data).headD []) with
      | none => simp [hl, hp]
      | some m => simp [hl, hp]
    · rw [if_pos hl]
      simp [hl]

/-- Claim C2, witness: the zk gate maps `"1.0.1"` to `ok false` (outside
the spec range), `"1.0.0"` to `ok true` (boundary), `"abc"` to a parse
error; the core gate's characterization evaluated at `"1.0.1"` gives
`true`. -/
theorem C2_version_gates_witness :
    check_version_compatibility
      ⟨"1.0.1", "p", .Transfer, "z", "", ⟨none, none, none, none, "t"⟩⟩
      = .ok (spec_version_in_range ⟨1, 0, 1, [], []⟩)
    ∧ spec_version_in_range ⟨1, 0, 1, [], []⟩ = false
    ∧ check_version_compatibility
        ⟨"1.0.0", "p", .Transfer, "z", "", ⟨none, none, none, none, "t"⟩⟩
        = .ok (spec_version_in_range ⟨1, 0, 0, [], []⟩)
    ∧ spec_version_in_range ⟨1, 0, 0, [], []⟩ = true
    ∧ check_version_compatibility
        ⟨"abc", "p", .Transfer, "z", "", ⟨none, none, none, none, "t"⟩⟩
        = .error "Failed to parse proof version"
    ∧ is_version_compatible
        ⟨"1.0.1", "p", .Transfer, "z", "", ⟨none, none, none, none, "t"⟩⟩
      = ((split_char '.' "1.0.1".toList).length == 3
          && parse_u32 ((split_char '.' "1.0.1".toList).headD []) == some 1) := by
  refine ⟨C2_version_gates.1 _ ⟨1, 0, 1, [], []⟩ (by decide), by decide,
    C2_version_gates.1 _ ⟨1, 0, 0, [], []⟩ (by decide), by decide,
    C2_version_gates.2.1 _ (by decide),
    C2_version_gates.2.2 ⟨"1.0.1", "p", .Transfer, "z", "", ⟨none, none, none, none, "t"⟩⟩⟩

/-- Claim C3, counterexample: a non-expired `PubkeyValidity` envelope
whose decoded payload is 10 bytes is rejected with `InvalidProofType`
(`UnsupportedProofKind`), not with the size-floor error the claim
predicts. -/
theorem C3_counterexample :
    verify_proof (fun _ => some ⟨"pubkey_proof", List.replicate 10 0⟩) (fun _ => none) 0
      ⟨"1.0.0", "p", .PubkeyValidity, "z", "", ⟨none, none, none, none, "t"⟩⟩
      VerificationConfig.default = .error .InvalidProofType
    ∧ ¬ (verify_proof (fun _ => some ⟨"pubkey_proof", List.replicate 10 0⟩) (fun _ => none) 0
      ⟨"1.0.0", "p", .PubkeyValidity, "z", "", ⟨none, none, none, none, "t"⟩⟩
      VerificationConfig.default = .error (.InvalidStructure "proof data too small")) := by
  exact ⟨rfl, by decide⟩

/-- Claim C3, amended: the dispatcher does NOT support `PubkeyValidity`;
every `PubkeyValidity` envelope that passes the temporal check is
rejected with `InvalidProofType` regardless of its payload, so the
32-byte floor is never reached for this kind. -/
theorem C3_pubkey_unsupported (decode : String → Option SerializableProofData)
    (parse_rfc3339 : String → Option Int) (now : Int)
    (proof : ImportableProof) (config : VerificationConfig)
    (hkind : proof.proof_type = .PubkeyValidity)
    (hfresh : is_proof_expired parse_rfc3339 now proof config = false) :
    verify_proof decode parse_rfc3339 now proof config = .error .InvalidProofType := by
  rw [verify_proof, hfresh, if_neg (by simp), hkind]

/-- Claim C3, witness: a fresh `PubkeyValidity` envelope with a large
payload and full metadata is still rejected as `InvalidProofType`. -/
theorem C3_pubkey_unsupported_witness :
    verify_proof (fun _ => some ⟨"pubkey_proof", List.replicate 64 0⟩) (fun _ => none) 0
      ⟨"1.0.0", "p", .PubkeyValidity, "z", "", ⟨some "A", some "B", none, some 9, "t"⟩⟩
      VerificationConfig.default = .error .InvalidProofType := by
  exact C3_pubkey_unsupported _ _ _ _ _ rfl (by decide)

/-- Claim C4: for non-expired `Transfer` (or `TransferWithProof`)
envelopes the required metadata is checked in the order `source_address`,
`destination_address`, `amount`, reporting `MissingMetadata` on the first
absent field; for `Withdraw` (or `WithdrawWithProof`) in the order
`source_address`, `amount`; and when the kind's required fields are all
present no `MissingMetadata` error is possible (in particular
`destination_address` and `mint_address` are never required for
withdrawals). -/
theorem C4_metadata_completeness (decode : String → Option SerializableProofData)
    (parse_rfc3339 : String → Option Int) (now : Int)
    (proof : ImportableProof) (config : VerificationConfig)
    (hfresh : is_proof_expired parse_rfc3339 now proof config = false) :
    ((proof.proof_type = .Transfer ∨ proof.proof_type = .TransferWithProof) →
      (proof.metadata.source_address = none →
        verify_proof decode parse_rfc3339 now proof config
          = .error (.MissingMetadata "source_address")) ∧
      (proof.metadata.source_address.isSome = true →
       proof.metadata.destination_address = none →
        verify_proof decode parse_rfc3339 now proof config
          = .error (.MissingMetadata "destination_address")) ∧
      (proof.metadata.source_address.isSome = true →
       proof.metadata.destination_address.isSome = true →
       proof.metadata.amount = none →
        verify_proof decode parse_rfc3339 now proof config
          = .error (.MissingMetadata "amount")) ∧
      (proof.metadata.source_address.isSome = true →
       proof.metadata.destination_address.isSome = true →
       proof.metadata.amount.isSome = true →
       ∀ field, verify_proof decode parse_rfc3339 now proof config
          ≠ .error (.MissingMetadata field)))
    ∧
    ((proof.proof_type = .Withdraw ∨ proof.proof_type = .WithdrawWithProof) →
      (proof.metadata.source_address = none →
        verify_proof decode parse_rfc3339 now proof config
          = .error (.MissingMetadata "source_address")) ∧
      (proof.metadata.source_address.isSome = true →
       proof.metadata.amount = none →
        verify_proof decode parse_rfc3339 now proof config
          = .error (.MissingMetadata "amount")) ∧
      (proof.metadata.source_address.isSome = true →
       proof.metadata.amount.isSome = true →
       ∀ field, verify_proof decode parse_rfc3339 now proof config
          ≠ .error (.MissingMetadata field))) := by
  constructor
  · rintro (hty | hty) <;>
    · rw [verify_proof, hfresh, if_neg (by simp), hty]
      refine ⟨?_, ?_, ?_, ?_⟩
      · intro hs
        simp [verify_transfer_proof, hs]
      · intro hs hd
        obtain ⟨s, hs'⟩ := Option.isSome_iff_exists.mp hs
        simp [verify_transfer_proof, hs', hd]
      · intro hs hd ha
        obtain ⟨s, hs'⟩ := Option.isSome_iff_exists.mp hs
        obtain ⟨d, hd'⟩ := Option.isSome_iff_exists.mp hd
        simp [verify_transfer_proof, hs', hd', ha]
      · intro hs hd ha
        exact verify_transfer_proof_not_missing decode proof config hs hd ha
  · rintro (hty | hty) <;>
    · rw [verify_proof, hfresh, if_neg (by simp), hty]
      refine ⟨?_, ?_, ?_⟩
      · intro hs
        simp [verify_withdraw_proof, hs]
      · intro hs ha
        obtain ⟨s, hs'⟩ := Option.isSome_iff_exists.mp hs
        simp [verify_withdraw_proof, hs', ha]
      · intro hs ha
        exact verify_withdraw_proof_not_missing decode proof config hs ha

/-- Claim C4, witness: a transfer missing only its destination reports
`MissingMetadata "destination_address"`; a withdrawal with a source but
no amount reports `MissingMetadata "amount"`; a withdrawal with source
and amount present but no destination (and a mint set) never reports
missing metadata. -/
theorem C4_metadata_completeness_witness :
    verify_proof (fun _ => none) (fun _ => none) 0
      ⟨"1.0.0", "p", .Transfer, "z", "", ⟨some "A", none, none, some 100, "t"⟩⟩
      VerificationConfig.default = .error (.MissingMetadata "destination_address")
    ∧ verify_proof (fun _ => none) (fun _ => none) 0
      ⟨"1.0.0", "p", .Withdraw, "z", "", ⟨some "A", none, none, none, "t"⟩⟩
      VerificationConfig.default = .error (.MissingMetadata "amount")
    ∧ ¬ (verify_proof (fun _ => none) (fun _ => none) 0
      ⟨"1.0.0", "p", .Withdraw, "z", "", ⟨some "A", none, some "M", some 5, "t"⟩⟩
      VerificationConfig.default = .error (.MissingMetadata "destination_address")) := by
  refine ⟨?_, ?_, ?_⟩
  · exact ((C4_metadata_completeness _ _ _ _ _ (by decide)).1 (Or.inl rfl)).2.1 rfl rfl
  · exact ((C4_metadata_completeness _ _ _ _ _ (by decide)).2 (Or.inl rfl)).2.1 rfl rfl
  · exact ((C4_metadata_completeness (fun _ => none) (fun _ => none) 0
      ⟨"1.0.0", "p", .Withdraw, "z", "", ⟨some "A", none, some "M", some 5, "t"⟩⟩
      VerificationConfig.default (by decide)).2 (Or.inl rfl)).2.2 rfl rfl _

/-- Claim C5: for every envelope that reaches the structural stage, a
payload whose decoding fails yields the decode error, a decoded
`binary_data` shorter than 32 bytes yields the size-floor error, and a
decoded `binary_data` of at least 32 bytes never yields either structural
error, regardless of content or proof kind. -/
theorem C5_payload_floor (decode : String → Option SerializableProofData)
    (parse_rfc3339 : String → Option Int) (now : Int)
    (proof : ImportableProof) (config : VerificationConfig)
    (h : reaches_structural_stage parse_rfc3339 now proof config) :
    (decode proof.data = none →
      verify_proof decode parse_rfc3339 now proof config
        = .error (.InvalidStructure "failed to extract proof data")) ∧
    (∀ r, decode proof.data = some r → r.binary_data.length < 32 →
      verify_proof decode parse_rfc3339 now proof config
        = .error (.InvalidStructure "proof data too small")) ∧
    (∀ r, decode proof.data = some r → 32 ≤ r.binary_data.length →
      verify_proof decode parse_rfc3339 now proof config
        ≠ .error (.InvalidStructure "proof data too small") ∧
      verify_proof decode parse_rfc3339 now proof config
        ≠ .error (.InvalidStructure "failed to extract proof data")) := by
  obtain ⟨hfresh, hvc, hkinds⟩ := h
  rcases hkinds with ⟨hty2, hs, hd, ha⟩ | ⟨hty2, hs, ha⟩
  · rcases hty2 with hty | hty <;>
    · rw [verify_proof, hfresh, if_neg (by simp), hty]
      exact verify_transfer_proof_payload decode proof config hs hd ha hvc
  · rcases hty2 with hty | hty <;>
    · rw [verify_proof, hfresh, if_neg (by simp), hty]
      exact verify_withdraw_proof_payload decode proof config hs ha hvc

/-- Claim C5, witness: same valid transfer envelope with a failing
decoder, a 10-byte payload, and a 32-byte payload: decode failure and the
size floor are reported, and 32 bytes never trips the floor. -/
theorem C5_payload_floor_witness :
    verify_proof (fun _ => none) (fun _ => none) 0
      ⟨"1.0.0", "p", .Transfer, "z", "", ⟨some "A", some "B", none, some 100, "t"⟩⟩
      VerificationConfig.default = .error (.InvalidStructure "failed to extract proof data")
    ∧ verify_proof (fun _ => some ⟨"transfer_proof", List.replicate 10 0⟩) (fun _ => none) 0
      ⟨"1.0.0", "p", .Transfer, "z", "", ⟨some "A", some "B", none, some 100, "t"⟩⟩
      VerificationConfig.default = .error (.InvalidStructure "proof data too small")
    ∧ ¬ (verify_proof (fun _ => some ⟨"transfer_proof", List.replicate 32 0⟩) (fun _ => none) 0
      ⟨"1.0.0", "p", .Transfer, "z", "", ⟨some "A", some "B", none, some 100, "t"⟩⟩
      VerificationConfig.default = .error (.InvalidStructure "proof data too small")) := by
  refine ⟨?_, ?_, ?_⟩
  · exact (C5_payload_floor (fun _ => none) (fun _ => none) 0
      ⟨"1.0.0", "p", .Transfer, "z", "", ⟨some "A", some "B", none, some 100, "t"⟩⟩
      VerificationConfig.default
      ⟨by decide, fun _ => by decide, Or.inl ⟨Or.inl rfl, rfl, rfl, rfl⟩⟩).1 rfl
  · exact (C5_payload_floor (fun _ => some ⟨"transfer_proof", List.replicate 10 0⟩)
      (fun _ => none) 0
      ⟨"1.0.0", "p", .Transfer, "z", "", ⟨some "A", some "B", none, some 100, "t"⟩⟩
      VerificationConfig.default
      ⟨by decide, fun _ => by decide, Or.inl ⟨Or.inl rfl, rfl, rfl, rfl⟩⟩).2.1
      ⟨"transfer_proof", List.replicate 10 0⟩ rfl (by decide)
  · exact ((C5_payload_floor (fun _ => some ⟨"transfer_proof", List.replicate 32 0⟩)
      (fun _ => none) 0
      ⟨"1.0.0", "p", .Transfer, "z", "", ⟨some "A", some "B", none, some 100, "t"⟩⟩
      VerificationConfig.default
      ⟨by decide, fun _ => by decide, Or.inl ⟨Or.inl rfl, rfl, rfl, rfl⟩⟩).2.2
      ⟨"transfer_proof", List.replicate 32 0⟩ rfl (by decide)).1

/-- Claim C6: an envelope whose `metadata.timestamp` fails to parse is
treated as not expired by `is_proof_expired` (for any configuration and
any current time), so the pipeline never rejects it as `ExpiredProof` —
the temporal stage is fail-open on unparseable timestamps. -/
theorem C6_unparseable_timestamp_not_expired
    (decode : String → Option SerializableProofData)
    (parse_rfc3339 : String → Option Int) (now : Int)
    (proof : ImportableProof) (config : VerificationConfig)
    (h : parse_rfc3339 proof.metadata.timestamp = none) :
    is_proof_expired parse_rfc3339 now proof config = false ∧
    verify_proof decode parse_rfc3339 now proof config ≠ .error .ExpiredProof := by
  have hfresh : is_proof_expired parse_rfc3339 now proof config = false := by
    simp [is_proof_expired, h]
  refine ⟨hfresh, ?_⟩
  rw [verify_proof, hfresh, if_neg (by simp)]
  cases hpt : proof.proof_type
  · exact verify_transfer_proof_ne_expired decode proof config
  · exact verify_withdraw_proof_ne_expired decode proof config
  · simp
  · exact verify_transfer_proof_ne_expired decode proof config
  · exact verify_withdraw_proof_ne_expired decode proof config

/-- Claim C6, witness: with an unparseable timestamp, the envelope is
not expired even at a far-future current time. -/
theorem C6_unparseable_timestamp_witness :
    is_proof_expired (fun _ => none) 99999999999999
      ⟨"1.0.0", "p", .Transfer, "z", "", ⟨some "A", some "B", none, some 1, "not-a-ts"⟩⟩
      VerificationConfig.default = false := by
  exact (C6_unparseable_timestamp_not_expired (fun _ => none) (fun _ => none) 99999999999999
    ⟨"1.0.0", "p", .Transfer, "z", "", ⟨some "A", some "B", none, some 1, "not-a-ts"⟩⟩
    VerificationConfig.default rfl).1

/-- Claim C7: for any envelope with a parseable version, `needs_upgrade`
is `ok true` exactly when the version is strictly below
`CURRENT_DTO_VERSION` (no supported-range hypothesis); when it is not,
`upgrade_proof_to_current_version` is a no-op returning `false`; when it
is, the upgrade rewrites the version field to exactly
`CURRENT_DTO_VERSION` and returns `true`, and a second upgrade of the
result returns `false` leaving it unchanged. -/
theorem C7_upgrade_protocol (p : ExportableProof) (v : SemVer)
    (h : semver_parse p.version = some v) :
    needs_upgrade p = .ok (semver_cmp v current_dto_semver == .lt)
    ∧ (semver_cmp v current_dto_semver ≠ .lt →
        upgrade_proof_to_current_version p = .ok (p, false))
    ∧ (semver_cmp v current_dto_semver = .lt →
        upgrade_proof_to_current_version p
          = .ok ({ p with version := CURRENT_DTO_VERSION }, true)
        ∧ upgrade_proof_to_current_version { p with version := CURRENT_DTO_VERSION }
          = .ok ({ p with version := CURRENT_DTO_VERSION }, false)) := by
  have hne : needs_upgrade p = .ok (semver_cmp v current_dto_semver == .lt) := by
    simp only [needs_upgrade, semver_parse_current, h]
  refine ⟨hne, ?_, ?_⟩
  · intro hlt
    have hb : (semver_cmp v current_dto_semver == .lt) = false := by
      cases hc : semver_cmp v current_dto_semver with
      | lt => exact absurd hc hlt
      | eq => decide
      | gt => decide
    rw [upgrade_proof_to_current_version, hne, hb]
  · intro hlt
    have hb : (semver_cmp v current_dto_semver == .lt) = true := by
      rw [hlt]; decide
    constructor
    · rw [upgrade_proof_to_current_version, hne, hb]
      simp only [get_version_relationship, semver_parse_current, h, hlt]
    · have hne2 : needs_upgrade { p with version := CURRENT_DTO_VERSION } = .ok false := by
        simp only [needs_upgrade, semver_parse_current]
        rfl
      rw [upgrade_proof_to_current_version, hne2]

/-- Claim C7, witness: a `"0.9.0"` envelope needs an upgrade, upgrading
sets its version to `"1.0.0"` returning `true`, and upgrading again
returns `false` without further change. -/
theorem C7_upgrade_protocol_witness :
    needs_upgrade ⟨"0.9.0", "p", .Transfer, "z", "", ⟨none, none, none, none, "t"⟩⟩ = .ok true
    ∧ upgrade_proof_to_current_version
        ⟨"0.9.0", "p", .Transfer, "z", "", ⟨none, none, none, none, "t"⟩⟩
        = .ok (⟨"1.0.0", "p", .Transfer, "z", "", ⟨none, none, none, none, "t"⟩⟩, true)
    ∧ upgrade_proof_to_current_version
        ⟨"1.0.0", "p", .Transfer, "z", "", ⟨none, none, none, none, "t"⟩⟩
        = .ok (⟨"1.0.0", "p", .Transfer, "z", "", ⟨none, none, none, none, "t"⟩⟩, false) := by
  have h := C7_upgrade_protocol ⟨"0.9.0", "p", .Transfer, "z", "", ⟨none, none, none, none, "t"⟩⟩
    ⟨0, 9, 0, [], []⟩ (by decide)
  exact ⟨h.1, (h.2.2 (by decide)).1, (h.2.2 (by decide)).2⟩

/-- Claim C8: for a parseable timestamp and a `max_age` within chrono's
representable range of `Duration::seconds`, the expiration test is true
exactly when `now - created_at` strictly exceeds `max_age` (times are in
nanoseconds, `max_age` in seconds), and expiration is monotone in the
gap: moving `now` later never turns an expired envelope fresh. -/
theorem C8_expiration_monotone (parse_rfc3339 : String → Option Int)
    (proof : ImportableProof) (config : VerificationConfig) (t : Int)
    (h : parse_rfc3339 proof.metadata.timestamp = some t)
    (hrange : config.max_proof_age_seconds ≤ 9223372036854775) :
    (∀ now : Int, is_proof_expired parse_rfc3339 now proof config = true ↔
        (config.max_proof_age_seconds : Int) * 1000000000 < now - t)
    ∧ (∀ now now' : Int, now ≤ now' →
        is_proof_expired parse_rfc3339 now proof config = true →
        is_proof_expired parse_rfc3339 now' proof config = true) := by
  have hcast : u64_as_i64 config.max_proof_age_seconds
      = (config.max_proof_age_seconds : Int) := by
    rw [u64_as_i64, if_pos]
    exact_mod_cast by omega
  have hiff : ∀ now : Int, is_proof_expired parse_rfc3339 now proof config = true ↔
      (config.max_proof_age_seconds : Int) * 1000000000 < now - t := by
    intro now
    simp [is_proof_expired, h, duration_seconds, hcast]
  refine ⟨hiff, ?_⟩
  intro now now' hle hexp
  rw [hiff] at hexp ⊢
  omega

/-- Claim C8, witness: with `created_at = 0` and the default one-hour
`max_age`, the envelope is expired one nanosecond past the hour. -/
theorem C8_expiration_monotone_witness :
    is_proof_expired (fun _ => some 0) 3600000000001
      ⟨"1.0.0", "p", .Transfer, "z", "", ⟨none, none, none, none, "t"⟩⟩
      VerificationConfig.default = true := by
  exact ((C8_expiration_monotone (fun _ => some 0)
    ⟨"1.0.0", "p", .Transfer, "z", "", ⟨none, none, none, none, "t"⟩⟩
    VerificationConfig.default 0 rfl (by decide)).1 3600000000001).mpr (by decide)

/-- Claim C9: the cryptographic-failure branch is dead code — the
pipeline never returns `VerificationFailed` (any payload reaching the
crypto check already passed the 32-byte floor, so it cannot be empty),
and flipping `verify_crypto` in the configuration never changes the
verdict of any envelope. -/
theorem C9_crypto_unreachable (decode : String → Option SerializableProofData)
    (parse_rfc3339 : String → Option Int) (now : Int)
    (proof : ImportableProof) (m : Nat) (cv : Bool) :
    (∀ b : Bool, verify_proof decode parse_rfc3339 now proof ⟨m, b, cv⟩
        ≠ .error .VerificationFailed)
    ∧ (∀ b1 b2 : Bool, verify_proof decode parse_rfc3339 now proof ⟨m, b1, cv⟩
        = verify_proof decode parse_rfc3339 now proof ⟨m, b2, cv⟩) := by
  constructor
  · intro b
    rw [verify_proof]
    split
    · simp
    · cases hpt : proof.proof_type
      · exact verify_transfer_proof_ne_failed decode proof ⟨m, b, cv⟩
      · exact verify_withdraw_proof_ne_failed decode proof ⟨m, b, cv⟩
      · simp
      · exact verify_transfer_proof_ne_failed decode proof ⟨m, b, cv⟩
      · exact verify_withdraw_proof_ne_failed decode proof ⟨m, b, cv⟩
  · intro b1 b2
    have hexp_eq : is_proof_expired parse_rfc3339 now proof ⟨m, b2, cv⟩
        = is_proof_expired parse_rfc3339 now proof ⟨m, b1, cv⟩ := rfl
    rw [verify_proof, verify_proof, hexp_eq]
    split
    · rfl
    · cases hpt : proof.proof_type
      · exact verify_transfer_proof_crypto_toggle decode proof m b1 b2 cv
      · exact verify_withdraw_proof_crypto_toggle decode proof m b1 b2 cv
      · rfl
      · exact verify_transfer_proof_crypto_toggle decode proof m b1 b2 cv
      · exact verify_withdraw_proof_crypto_toggle decode proof m b1 b2 cv

/-- Claim C9, witness: a valid transfer envelope verifies identically
with `verify_crypto` on and off, and is never `VerificationFailed`. -/
theorem C9_crypto_unreachable_witness :
    verify_proof (fun _ => some ⟨"transfer_proof", List.replicate 64 0⟩) (fun _ => none) 0
      ⟨"1.0.0", "p", .Transfer, "z", "", ⟨some "A", some "B", none, some 7, "t"⟩⟩
      ⟨3600, true, true⟩
    = verify_proof (fun _ => some ⟨"transfer_proof", List.replicate 64 0⟩) (fun _ => none) 0
      ⟨"1.0.0", "p", .Transfer, "z", "", ⟨some "A", some "B", none, some 7, "t"⟩⟩
      ⟨3600, false, true⟩
    ∧ ¬ (verify_proof (fun _ => some ⟨"transfer_proof", List.replicate 64 0⟩) (fun _ => none) 0
      ⟨"1.0.0", "p", .Transfer, "z", "", ⟨some "A", some "B", none, some 7, "t"⟩⟩
      ⟨3600, true, true⟩ = .error .VerificationFailed) := by
  constructor
  · exact (C9_crypto_unreachable (fun _ => some ⟨"transfer_proof", List.replicate 64 0⟩)
      (fun _ => none) 0
      ⟨"1.0.0", "p", .Transfer, "z", "", ⟨some "A", some "B", none, some 7, "t"⟩⟩
      3600 true).2 true false
  · exact (C9_crypto_unreachable (fun _ => some ⟨"transfer_proof", List.replicate 64 0⟩)
      (fun _ => none) 0
      ⟨"1.0.0", "p", .Transfer, "z", "", ⟨some "A", some "B", none, some 7, "t"⟩⟩
      3600 true).1 true

/-- Claim C10: the inner `data_type` label is never checked against the
envelope's kind — `extract_proof_binary_data` projects out only
`binary_data`, so two envelopes identical except in their encoded payload
whose decoded records share the same `binary_data` (their `data_type`
may differ arbitrarily) get identical verdicts from `verify_proof`. -/
theorem C10_data_type_ignored (decode : String → Option SerializableProofData)
    (parse_rfc3339 : String → Option Int) (now : Int)
    (p1 p2 : ImportableProof) (config : VerificationConfig)
    (r1 r2 : SerializableProofData)
    (h1 : decode p1.data = some r1) (h2 : decode p2.data = some r2)
    (hbin : r1.binary_data = r2.binary_data)
    (hver : p1.version = p2.version) (hid : p1.proof_id = p2.proof_id)
    (hty : p1.proof_type = p2.proof_type) (hsdk : p1.zk_sdk_version = p2.zk_sdk_version)
    (hmd : p1.metadata = p2.metadata) :
    extract_proof_binary_data decode p1 = some r1.binary_data
    ∧ verify_proof decode parse_rfc3339 now p1 config
      = verify_proof decode parse_rfc3339 now p2 config := by
  constructor
  · simp [extract_proof_binary_data, h1]
  · obtain ⟨v1, i1, t1, s1, d1, m1⟩ := p1
    obtain ⟨v2, i2, t2, s2, d2, m2⟩ := p2
    simp only at hver hid hty hsdk hmd h1 h2
    subst hver hid hty hsdk hmd
    have hexp_eq : is_proof_expired parse_rfc3339 now ⟨v1, i1, t1, s1, d2, m1⟩ config
        = is_proof_expired parse_rfc3339 now ⟨v1, i1, t1, s1, d1, m1⟩ config := rfl
    rw [verify_proof, verify_proof, hexp_eq]
    split
    · rfl
    · cases t1
      · simp [verify_transfer_proof, is_version_compatible, extract_proof_binary_data,
          h1, h2, hbin]
      · simp [verify_withdraw_proof, is_version_compatible, extract_proof_binary_data,
          h1, h2, hbin]
      · rfl
      · simp [verify_transfer_proof, is_version_compatible, extract_proof_binary_data,
          h1, h2, hbin]
      · simp [verify_withdraw_proof, is_version_compatible, extract_proof_binary_data,
          h1, h2, hbin]

/-- Claim C10, witness: two transfer envelopes whose payloads decode to
the same 64 bytes but carry different inner labels (`"transfer_proof"`
versus `"withdraw_proof"`) get the same verdict. -/
theorem C10_data_type_ignored_witness :
    verify_proof
      (fun s => if s = "d1" then some ⟨"transfer_proof", List.replicate 64 0⟩
                else some ⟨"withdraw_proof", List.replicate 64 0⟩)
      (fun _ => none) 0
      ⟨"1.0.0", "p", .Transfer, "z", "d1", ⟨some "A", some "B", none, some 7, "t"⟩⟩
      VerificationConfig.default
    = verify_proof
      (fun s => if s = "d1" then some ⟨"transfer_proof", List.replicate 64 0⟩
                else some ⟨"withdraw_proof", List.replicate 64 0⟩)
      (fun _ => none) 0
      ⟨"1.0.0", "p", .Transfer, "z", "d2", ⟨some "A", some "B", none, some 7, "t"⟩⟩
      VerificationConfig.default := by
  exact (C10_data_type_ignored
    (fun s => if s = "d1" then some ⟨"transfer_proof", List.replicate 64 0⟩
              else some ⟨"withdraw_proof", List.replicate 64 0⟩)
    (fun _ => none) 0
    ⟨"1.0.0", "p", .Transfer, "z", "d1", ⟨some "A", some "B", none, some 7, "t"⟩⟩
    ⟨"1.0.0", "p", .Transfer, "z", "d2", ⟨some "A", some "B", none, some 7, "t"⟩⟩
    VerificationConfig.default
    ⟨"transfer_proof", List.replicate 64 0⟩
    ⟨"withdraw_proof", List.replicate 64 0⟩
    (by decide) (by decide) rfl rfl rfl rfl rfl rfl).2

end Florin
